import Mathlib

/-!
Shallow embedding of the PDF-term batch generator (`src/app.py`).

Conventions of the embedding:
* Python strings are Lean `String`s; `str.replace(c, '')` over a single
  character becomes a `List.filter` over the string's characters, and
  slicing becomes `List.take`/`List.drop`.
* Python's `str.strip()` / `str.upper()` are modelled over the ASCII range
  (`Char.isWhitespace` / `Char.toUpper`), which is the range exercised by
  the application's data.
* `pandas` rows become association lists from column name to cell value;
  a missing key (Python `KeyError`) is an `Except.error`, matching the
  `try`/`except` fault isolation of the batch loop.
* The PDF rendering library is out of scope (spec §1); a rendered document
  is modelled as the record of all values interpolated into the fixed
  template text (`PdfDoc`), and the "bytes" of `gerar_termo_pdf_bytes`
  are that record.  The ambient current date (`datetime.now()`) is passed
  explicitly as a `DataAtual` value.
* The Streamlit progress/status calls inside the loop are UI effects with
  no influence on the returned triple and are omitted.
-/

/-- One calendar date, standing for Python's `datetime.now()` result. -/
structure DataAtual where
  day : Nat
  month : Nat
  year : Nat
deriving DecidableEq

/-- Month names dictionary of `formatar_data_extenso` (app.py:54-58). -/
def meses (m : Nat) : String :=
  match m with
  | 1 => "janeiro"
  | 2 => "fevereiro"
  | 3 => "março"
  | 4 => "abril"
  | 5 => "maio"
  | 6 => "junho"
  | 7 => "julho"
  | 8 => "agosto"
  | 9 => "setembro"
  | 10 => "outubro"
  | 11 => "novembro"
  | 12 => "dezembro"
  | _ => ""

/-- `formatar_data_extenso` (app.py:51-59) applied to an explicit date. -/
def formatar_data_extenso (d : DataAtual) : String :=
  toString d.day ++ " de " ++ meses d.month ++ " de " ++ toString d.year

/-- Python `str.strip()` on the character list (ASCII whitespace). -/
def pyStripChars (l : List Char) : List Char :=
  ((l.dropWhile Char.isWhitespace).reverse.dropWhile Char.isWhitespace).reverse

/-- Python `str.strip()`. -/
def pyStrip (s : String) : String :=
  String.mk (pyStripChars s.data)

/-- Python `str.upper()` (ASCII case mapping). -/
def pyUpper (s : String) : String :=
  String.mk (s.data.map Char.toUpper)

/-- Removal of the three separator characters performed by
`formatar_cpf` via chained `str.replace` calls (app.py:45). -/
def cleanCpfChars (l : List Char) : List Char :=
  ((l.filter (fun c => !(c == '.'))).filter (fun c => !(c == '-'))).filter (fun c => !(c == ' '))

/-- `formatar_cpf` (app.py:43-48): strip separators, then regroup the
11-character case as `XXX.XXX.XXX-XX`, otherwise return the cleaned
string unchanged. -/
def formatar_cpf (cpf : String) : String :=
  if (cleanCpfChars cpf.data).length = 11 then
    String.mk ((cleanCpfChars cpf.data).take 3 ++ '.' :: ((cleanCpfChars cpf.data).drop 3).take 3 ++
      '.' :: ((cleanCpfChars cpf.data).drop 6).take 3 ++ '-' :: (cleanCpfChars cpf.data).drop 9)
  else String.mk (cleanCpfChars cpf.data)

/-- Static metadata of one institution (app.py:24-40). -/
structure IesInfo where
  nome_completo : String
  sigla : String
  logo : String
deriving DecidableEq

/-- The `IES_CONFIG` dictionary (app.py:24-40). -/
def IES_CONFIG : List (String × IesInfo) :=
  [("UNIANDRADE",
    { nome_completo := "Centro Universitário Campos de Andrade – UNIANDRADE",
      sigla := "UNIANDRADE", logo := "logos/logo uni.png" }),
   ("UNIB",
    { nome_completo := "Universidade Ibirapuera - UNIB",
      sigla := "UNIB", logo := "logos/logo unib.png" }),
   ("UNISMG",
    { nome_completo := "Centro Universitário Santa Maria da Glória - UNISMG",
      sigla := "UNISMG", logo := "logos/logo smg.png" })]

/-- Dictionary lookup `IES_CONFIG[ies]`; `none` models `ies not in IES_CONFIG`. -/
def iesLookup (k : String) : Option IesInfo :=
  (IES_CONFIG.find? (fun p => p.1 == k)).map (fun p => p.2)

/-- One spreadsheet row as an association list from column name to value. -/
abbrev Row := List (String × String)

/-- `row[k]`: dictionary access, `KeyError` modelled as an error. -/
def rowGet (r : Row) (k : String) : Except String String :=
  match r.find? (fun p => p.1 == k) with
  | some p => Except.ok p.2
  | none => Except.error ("KeyError: " ++ k)

/-- `row.get(k, d)`: dictionary access with default. -/
def rowGetD (r : Row) (k d : String) : String :=
  match r.find? (fun p => p.1 == k) with
  | some p => p.2
  | none => d

/-- `mapear_ies` (app.py:403-416): the three numeric codes map to fixed
institution identifiers; anything else is upper-cased after the strip. -/
def mapear_ies (valor : String) : String :=
  if pyStrip valor = "1" then "UNIANDRADE"
  else if pyStrip valor = "201" then "UNISMG"
  else if pyStrip valor = "301" then "UNIB"
  else pyUpper (pyStrip valor)

/-- The values interpolated into the rendered PDF: this record stands for
the document bytes produced by `gerar_termo_pdf_bytes` (the fixed template
wording and page layout are out of scope, spec §1). -/
structure PdfDoc where
  nome : String
  cpf_formatado : String
  rua : String
  bairro : String
  cidade : String
  uf : String
  curso : String
  ies : String
  data_extenso : String
deriving DecidableEq

/-- `aluno_data['NOME'].replace(' ', '_')` (app.py:80). -/
def sublinhado (s : String) : String :=
  String.mk (s.data.map (fun c => if c = ' ' then '_' else c))

/-- `gerar_termo_pdf_bytes` (app.py:62-263): validate the institution
first (app.py:74-75), derive the filename (app.py:80), then interpolate
the record fields in source order; any missing field is a `KeyError`
caught by the caller's `try`. Returns (document, filename). -/
def gerar_termo_pdf_bytes (hoje : DataAtual) (aluno_data : Row) (ies : String) :
    Except String (PdfDoc × String) :=
  if (iesLookup ies).isNone then
    Except.error ("IES \x27" ++ ies ++ "\x27 não é válida. Use: UNIANDRADE, UNIB ou UNISMG")
  else do
    let nome ← rowGet aluno_data ("NOME")
    let nome_arquivo := sublinhado nome ++ "_" ++ ies ++ "_termo.pdf"
    let cpf ← rowGet aluno_data ("CPF")
    let rua ← rowGet aluno_data ("RUA")
    let bairro ← rowGet aluno_data ("BAIRRO")
    let cidade ← rowGet aluno_data ("CIDADE")
    let uf ← rowGet aluno_data ("UF")
    let curso ← rowGet aluno_data ("CURSO")
    Except.ok ({ nome := nome, cpf_formatado := formatar_cpf cpf, rua := rua,
                 bairro := bairro, cidade := cidade, uf := uf, curso := curso,
                 ies := ies, data_extenso := formatar_data_extenso hoje }, nome_arquivo)

/-- The tabular dataset: normalized column names plus the rows. -/
structure DataFrame where
  columns : List String
  rows : List Row

/-- Effective institution of one record (app.py:295-298): the row's own
`IES` value, stripped and upper-cased, when the table has an `IES`
column; else the caller-supplied default (`None` when absent). -/
def efetivaIES (temColunaIES : Bool) (ies_padrao : Option String) (row : Row) :
    Except String (Option String) :=
  if temColunaIES then
    (rowGet row ("IES")).map (fun v => some (pyUpper (pyStrip v)))
  else Except.ok ies_padrao

/-- Body of the `try` block of the batch loop (app.py:291-308): effective
institution, membership check against `IES_CONFIG` (app.py:301-302), then
rendering. Returns (filename, document) as written into the ZIP. -/
def processarLinha (hoje : DataAtual) (temColunaIES : Bool) (ies_padrao : Option String)
    (row : Row) : Except String (String × PdfDoc) := do
  let ies ← efetivaIES temColunaIES ies_padrao row
  match ies with
  | some s =>
    if (iesLookup s).isNone then Except.error ("IES \x27" ++ s ++ "\x27 inválida")
    else (gerar_termo_pdf_bytes hoje row s).map (fun r => (r.2, r.1))
  | none => Except.error ("IES \x27None\x27 inválida")

/-- Whether the loop body raised for this row. -/
def isErro {α : Type} (r : Except String α) : Bool :=
  match r with
  | Except.error _ => true
  | Except.ok _ => false

/-- The structured error entry appended on failure (app.py:314). -/
def mensagemErro (index : Nat) (row : Row) (e : String) : String :=
  "Erro na linha " ++ toString (index + 1) ++ " (" ++
    rowGetD row ("NOME") ("Nome não encontrado") ++ "): " ++ e

/-- The `for index, row in df.iterrows()` loop of `criar_zip_termos`
(app.py:290-319), accumulating ZIP entries, the success count and the
error list in input order. -/
def zipLoop (hoje : DataAtual) (temColunaIES : Bool) (ies_padrao : Option String) :
    Nat → List Row → List (String × PdfDoc) × Nat × List String
  | _, [] => ([], 0, [])
  | index, row :: rest =>
    let r := zipLoop hoje temColunaIES ies_padrao (index + 1) rest
    match processarLinha hoje temColunaIES ies_padrao row with
    | Except.ok e => (e :: r.1, r.2.1 + 1, r.2.2)
    | Except.error e => (r.1, r.2.1, mensagemErro index row e :: r.2.2)

/-- `criar_zip_termos` (app.py:266-327): returns the archive (as its list
of named entries), the success count and the error list. -/
def criar_zip_termos (hoje : DataAtual) (df : DataFrame) (ies_padrao : Option String) :
    List (String × PdfDoc) × Nat × List String :=
  zipLoop hoje (df.columns.contains ("IES")) ies_padrao 0 df.rows

/-- `colunas_necessarias` (app.py:421). -/
def colunas_necessarias : List String :=
  ["NOME", "CPF", "RUA", "BAIRRO", "CIDADE", "UF", "CURSO"]

/-- `df.columns = df.columns.str.strip().str.upper()` (app.py:399); row
keys are renamed alike, as pandas column renaming re-keys every row. -/
def normalizarDf (df : DataFrame) : DataFrame :=
  { columns := df.columns.map (fun c => pyUpper (pyStrip c)),
    rows := df.rows.map (fun r => r.map (fun kv => (pyUpper (pyStrip kv.1), kv.2))) }

/-- `df['IES'] = df['IES'].apply(mapear_ies)` guarded by the column check
(app.py:402-418). -/
def aplicarMapearIES (df : DataFrame) : DataFrame :=
  if df.columns.contains ("IES") then
    { columns := df.columns,
      rows := df.rows.map (fun r =>
        r.map (fun kv => if kv.1 == "IES" then (kv.1, mapear_ies kv.2) else kv)) }
  else df

/-- The batch pipeline of `main` after a file is read (app.py:398-427 and
463): normalize column names, map institution codes, check the required
columns, and only then run `criar_zip_termos`. A missing-column failure
returns the exact list of missing names (the report joins them with a
comma, app.py:425). -/
def processarPlanilha (hoje : DataAtual) (df0 : DataFrame) (ies_padrao : String) :
    Except (List String) (List (String × PdfDoc) × Nat × List String) :=
  if (colunas_necessarias.filter
      (fun c => !((aplicarMapearIES (normalizarDf df0)).columns.contains c))).isEmpty then
    Except.ok (criar_zip_termos hoje (aplicarMapearIES (normalizarDf df0)) (some ies_padrao))
  else
    Except.error (colunas_necessarias.filter
      (fun c => !((aplicarMapearIES (normalizarDf df0)).columns.contains c)))

/-- A record whose effective institution identifier is determined but not
configured (this is what makes the loop body raise at app.py:301-302; the
`None` default counts, since `None not in IES_CONFIG`). -/
def iesInvalida (temColunaIES : Bool) (ies_padrao : Option String) (row : Row) : Bool :=
  match efetivaIES temColunaIES ies_padrao row with
  | Except.ok (some s) => (iesLookup s).isNone
  | Except.ok none => true
  | Except.error _ => false

/-- The failing rows of a batch, paired with their 0-based row indices. -/
def falhas (hoje : DataAtual) (temColunaIES : Bool) (ies_padrao : Option String)
    (rows : List Row) : List (Nat × Row) :=
  (List.enumFrom 0 rows).filter
    (fun q => isErro (processarLinha hoje temColunaIES ies_padrao q.2))

/-- The error entry generated for one failing row. -/
def msgDe (hoje : DataAtual) (temColunaIES : Bool) (ies_padrao : Option String)
    (q : Nat × Row) : String :=
  match processarLinha hoje temColunaIES ies_padrao q.2 with
  | Except.error e => mensagemErro q.1 q.2 e
  | Except.ok _ => ""

/-! Helper lemmas about `Char.toUpper` and ASCII whitespace. -/

theorem char_toNat_inj {c d : Char} (h : c.toNat = d.toNat) : c = d := by
  have h1 : Char.ofNat c.toNat = Char.ofNat d.toNat := by rw [h]
  rwa [Char.ofNat_toNat, Char.ofNat_toNat] at h1

theorem char_eq_iff_toNat {c d : Char} : c = d ↔ c.toNat = d.toNat :=
  ⟨fun h => h ▸ rfl, char_toNat_inj⟩

theorem toNat_ofNat_valid {n : Nat} (h : n.isValidChar) : (Char.ofNat n).toNat = n := by
  rw [Char.ofNat, dif_pos h]
  rfl

theorem toUpper_toNat (c : Char) :
    (Char.toUpper c).toNat =
      if 97 ≤ c.toNat ∧ c.toNat ≤ 122 then c.toNat - 32 else c.toNat := by
  simp only [Char.toUpper]
  by_cases h : 97 ≤ c.toNat ∧ c.toNat ≤ 122
  · rw [if_pos h, if_pos h]
    exact toNat_ofNat_valid (Or.inl (by omega))
  · rw [if_neg h, if_neg h]

theorem toUpper_idem (c : Char) : Char.toUpper (Char.toUpper c) = Char.toUpper c := by
  apply char_toNat_inj
  by_cases h : 97 ≤ c.toNat ∧ c.toNat ≤ 122
  · have h1 : (Char.toUpper c).toNat = c.toNat - 32 := by rw [toUpper_toNat, if_pos h]
    rw [toUpper_toNat, h1, if_neg (by omega)]
  · have h1 : (Char.toUpper c).toNat = c.toNat := by rw [toUpper_toNat, if_neg h]
    rw [toUpper_toNat, h1, if_neg h]

theorem toUpper_eq_of_lt_65 {c d : Char} (hd : d.toNat < 65) (h : Char.toUpper c = d) :
    c = d := by
  apply char_toNat_inj
  have h2 := congrArg Char.toNat h
  rw [toUpper_toNat] at h2
  split at h2
  · omega
  · exact h2

theorem ws_iff (c : Char) :
    c.isWhitespace = true ↔ (c.toNat = 32 ∨ c.toNat = 9 ∨ c.toNat = 13 ∨ c.toNat = 10) := by
  have h32 : (' ' : Char).toNat = 32 := by decide
  have h9 : ('\t' : Char).toNat = 9 := by decide
  have h13 : ('\r' : Char).toNat = 13 := by decide
  have h10 : ('\n' : Char).toNat = 10 := by decide
  simp only [Char.isWhitespace, Bool.or_eq_true, decide_eq_true_eq,
    @char_eq_iff_toNat c ' ', @char_eq_iff_toNat c '\t', @char_eq_iff_toNat c '\r',
    @char_eq_iff_toNat c '\n', h32, h9, h13, h10]
  tauto

theorem ws_toUpper (c : Char) : (Char.toUpper c).isWhitespace = c.isWhitespace := by
  by_cases h : 97 ≤ c.toNat ∧ c.toNat ≤ 122
  · have h1 : (Char.toUpper c).toNat = c.toNat - 32 := by rw [toUpper_toNat, if_pos h]
    have e1 : (Char.toUpper c).isWhitespace = false := by
      rw [← Bool.not_eq_true, ws_iff, h1]
      omega
    have e2 : c.isWhitespace = false := by
      rw [← Bool.not_eq_true, ws_iff]
      omega
    rw [e1, e2]
  · have h1 : Char.toUpper c = c := by
      apply char_toNat_inj
      rw [toUpper_toNat, if_neg h]
    rw [h1]

/-! Algebra of `pyStrip` and `pyUpper`. -/

theorem string_ext {s t : String} (h : s.data = t.data) : s = t :=
  congrArg String.mk h

theorem pyStripChars_eq_rdropWhile (l : List Char) :
    pyStripChars l = List.rdropWhile Char.isWhitespace (l.dropWhile Char.isWhitespace) := by
  simp [pyStripChars, List.rdropWhile]

theorem dropWhile_rdropWhile_self {α : Type} (p : α → Bool) (l : List α)
    (h : l.dropWhile p = l) : (l.rdropWhile p).dropWhile p = l.rdropWhile p := by
  cases hrd : l.rdropWhile p with
  | nil => simp
  | cons a t =>
    have hpre : a :: t <+: l := hrd ▸ List.rdropWhile_prefix p l
    obtain ⟨u, hu⟩ := hpre
    rw [← hu, List.cons_append] at h
    by_cases hpa : p a
    · rw [List.dropWhile_cons_of_pos hpa] at h
      have hlen := congrArg List.length h
      have hle : (List.dropWhile p (t ++ u)).length ≤ (t ++ u).length :=
        (List.dropWhile_sublist p).length_le
      simp only [List.length_cons] at hlen
      omega
    · rw [List.dropWhile_cons_of_neg hpa]

theorem pyStripChars_idem (l : List Char) : pyStripChars (pyStripChars l) = pyStripChars l := by
  rw [pyStripChars_eq_rdropWhile, pyStripChars_eq_rdropWhile]
  rw [dropWhile_rdropWhile_self Char.isWhitespace (l.dropWhile Char.isWhitespace)
    (List.dropWhile_idempotent _ _)]
  rw [List.rdropWhile_idempotent]

theorem pyStripChars_map_toUpper (l : List Char) :
    pyStripChars (l.map Char.toUpper) = (pyStripChars l).map Char.toUpper := by
  have hws : (Char.isWhitespace ∘ Char.toUpper) = Char.isWhitespace := funext ws_toUpper
  unfold pyStripChars
  rw [List.dropWhile_map, hws, ← List.map_reverse, List.dropWhile_map, hws, ← List.map_reverse]

theorem pyStrip_pyStrip (s : String) : pyStrip (pyStrip s) = pyStrip s := by
  apply string_ext
  simp [pyStrip, pyStripChars_idem]

theorem pyStrip_pyUpper (s : String) : pyStrip (pyUpper s) = pyUpper (pyStrip s) := by
  apply string_ext
  simp [pyStrip, pyUpper, pyStripChars_map_toUpper]

theorem pyUpper_pyUpper (s : String) : pyUpper (pyUpper s) = pyUpper s := by
  apply string_ext
  have hup : (Char.toUpper ∘ Char.toUpper) = Char.toUpper := funext toUpper_idem
  simp [pyUpper, List.map_map, hup]

theorem map_toUpper_eq_of_small :
    ∀ (l ds : List Char), (∀ d ∈ ds, d.toNat < 65) → l.map Char.toUpper = ds → l = ds := by
  intro l
  induction l with
  | nil =>
    intro ds _ h
    exact h
  | cons a t ih =>
    intro ds hds h
    cases ds with
    | nil => simp at h
    | cons d dt =>
      simp only [List.map_cons, List.cons.injEq] at h
      have ha := toUpper_eq_of_lt_65 (hds d (List.mem_cons_self d dt)) h.1
      rw [ha, ih dt (fun x hx => hds x (List.mem_cons_of_mem d hx)) h.2]

theorem pyUpper_eq_small {s t : String} (hds : ∀ d ∈ t.data, d.toNat < 65)
    (h : pyUpper s = t) : s = t := by
  apply string_ext
  exact map_toUpper_eq_of_small s.data t.data hds (congrArg String.data h)

def keepCpf (c : Char) : Bool := !(c == ' ') && (!(c == '-') && !(c == '.'))

theorem cleanCpfChars_eq_filter (l : List Char) : cleanCpfChars l = l.filter keepCpf := by
  simp only [cleanCpfChars, List.filter_filter]
  apply List.filter_congr
  intro a _
  simp [keepCpf, Bool.and_assoc]

theorem keep_mem_clean {l : List Char} : ∀ c ∈ cleanCpfChars l, keepCpf c = true := by
  intro c hc
  rw [cleanCpfChars_eq_filter] at hc
  exact (List.mem_filter.mp hc).2

theorem clean_eq_self_of_all {l : List Char} (h : ∀ c ∈ l, keepCpf c = true) :
    cleanCpfChars l = l := by
  rw [cleanCpfChars_eq_filter]
  exact List.filter_eq_self.mpr h

theorem clean_clean (l : List Char) : cleanCpfChars (cleanCpfChars l) = cleanCpfChars l :=
  clean_eq_self_of_all keep_mem_clean

theorem take_drop_reassemble (s : List Char) :
    s.take 3 ++ ((s.drop 3).take 3 ++ ((s.drop 6).take 3 ++ s.drop 9)) = s := by
  have h1 : (s.drop 3).drop 3 = s.drop 6 := by rw [List.drop_drop]
  have h2 : (s.drop 6).drop 3 = s.drop 9 := by rw [List.drop_drop]
  calc s.take 3 ++ ((s.drop 3).take 3 ++ ((s.drop 6).take 3 ++ s.drop 9))
      = s.take 3 ++ ((s.drop 3).take 3 ++ ((s.drop 6).take 3 ++ (s.drop 6).drop 3)) := by
        rw [h2]
    _ = s.take 3 ++ ((s.drop 3).take 3 ++ s.drop 6) := by rw [List.take_append_drop]
    _ = s.take 3 ++ ((s.drop 3).take 3 ++ (s.drop 3).drop 3) := by rw [h1]
    _ = s.take 3 ++ s.drop 3 := by rw [List.take_append_drop]
    _ = s := List.take_append_drop 3 s

theorem clean_grouped (s : List Char) (hs : ∀ c ∈ s, keepCpf c = true) :
    cleanCpfChars (s.take 3 ++ '.' :: (s.drop 3).take 3 ++ '.' :: (s.drop 6).take 3 ++
      '-' :: s.drop 9) = s := by
  have hdot : keepCpf '.' = false := by decide
  have hhy : keepCpf '-' = false := by decide
  rw [cleanCpfChars_eq_filter]
  simp only [List.filter_append, List.filter_cons, hdot, hhy, Bool.false_eq_true, if_false]
  rw [List.filter_eq_self.mpr (fun c hc => hs c (List.mem_of_mem_take hc)),
    List.filter_eq_self.mpr (fun c hc => hs c (List.mem_of_mem_drop (List.mem_of_mem_take hc))),
    List.filter_eq_self.mpr (fun c hc => hs c (List.mem_of_mem_drop (List.mem_of_mem_take hc))),
    List.filter_eq_self.mpr (fun c hc => hs c (List.mem_of_mem_drop hc))]
  rw [List.append_assoc, List.append_assoc]
  exact take_drop_reassemble s

def grouped (l : List Char) : List Char :=
  l.take 3 ++ '.' :: (l.drop 3).take 3 ++ '.' :: (l.drop 6).take 3 ++ '-' :: l.drop 9

theorem clean_grouped2 (s : List Char) (hs : ∀ c ∈ s, keepCpf c = true) :
    cleanCpfChars (grouped s) = s := clean_grouped s hs

theorem formatar_cpf_eq (cpf : String) :
    formatar_cpf cpf =
      if (cleanCpfChars cpf.data).length = 11 then String.mk (grouped (cleanCpfChars cpf.data))
      else String.mk (cleanCpfChars cpf.data) := rfl

theorem formatar_cpf_data (cpf : String) :
    cleanCpfChars (formatar_cpf cpf).data = cleanCpfChars cpf.data := by
  rw [formatar_cpf_eq]
  by_cases h : (cleanCpfChars cpf.data).length = 11
  · rw [if_pos h]
    exact clean_grouped2 _ keep_mem_clean
  · rw [if_neg h]
    exact clean_clean _

theorem formatar_cpf_idem (cpf : String) :
    formatar_cpf (formatar_cpf cpf) = formatar_cpf cpf := by
  rw [formatar_cpf_eq (formatar_cpf cpf), formatar_cpf_data cpf]
  exact (formatar_cpf_eq cpf).symm

def digitCount (l : List Char) : Nat := (l.filter Char.isDigit).length

/-- C2 counterexample: read literally ("digit count"), the claim fails.
The input "abcdefghijk" has no digit at all in its cleaned form, so the
claim as stated demands the cleaned string back unchanged, yet the code
regroups any 11-character cleaned string. -/
theorem formatar_cpf_contra :
    digitCount (cleanCpfChars ("abcdefghijk").data) ≠ 11 ∧
    formatar_cpf "abcdefghijk" ≠ String.mk (cleanCpfChars ("abcdefghijk").data) ∧
    formatar_cpf "abcdefghijk" = "abc.def.ghi-jk" := by decide

/-- C2 (amended): `formatar_cpf` strips periods, hyphens and spaces; if
the cleaned string has length 11 (character count, not digit count) it
returns the characters regrouped as XXX.XXX.XXX-XX with the same
characters in the same order (stripping the separators of the output
recovers the cleaned input); for any other length it returns the cleaned
string unchanged; and it is idempotent (in particular on already-cleaned
input). -/
theorem formatar_cpf_spec (cpf : String) :
    ((cleanCpfChars cpf.data).length = 11 →
      (formatar_cpf cpf).data =
        (cleanCpfChars cpf.data).take 3 ++ '.' :: ((cleanCpfChars cpf.data).drop 3).take 3 ++
          '.' :: ((cleanCpfChars cpf.data).drop 6).take 3 ++ '-' :: (cleanCpfChars cpf.data).drop 9 ∧
      cleanCpfChars (formatar_cpf cpf).data = cleanCpfChars cpf.data) ∧
    ((cleanCpfChars cpf.data).length ≠ 11 →
      formatar_cpf cpf = String.mk (cleanCpfChars cpf.data)) ∧
    formatar_cpf (formatar_cpf cpf) = formatar_cpf cpf := by
  refine ⟨fun h => ⟨?_, formatar_cpf_data cpf⟩, fun h => ?_, formatar_cpf_idem cpf⟩
  · rw [formatar_cpf_eq, if_pos h]
    rfl
  · rw [formatar_cpf_eq, if_neg h]

/-- Witness for C2 at the concrete inputs "123 456.789-01" and "123". -/
theorem formatar_cpf_spec_witness :
    (cleanCpfChars ("123 456.789-01").data).length = 11 ∧
    (formatar_cpf "123 456.789-01").data =
      (cleanCpfChars ("123 456.789-01").data).take 3 ++
        '.' :: ((cleanCpfChars ("123 456.789-01").data).drop 3).take 3 ++
        '.' :: ((cleanCpfChars ("123 456.789-01").data).drop 6).take 3 ++
        '-' :: (cleanCpfChars ("123 456.789-01").data).drop 9 ∧
    (cleanCpfChars ("123").data).length ≠ 11 ∧
    formatar_cpf "123" = String.mk (cleanCpfChars ("123").data) :=
  ⟨by decide, ((formatar_cpf_spec "123 456.789-01").1 (by decide)).1, by decide,
    (formatar_cpf_spec "123").2.1 (by decide)⟩

/-- C4 counterexample: "1 " is not the string "1", so per the claim it
should be returned upper-cased and otherwise unchanged; the code strips
it first and maps it to UNIANDRADE. -/
theorem mapear_ies_contra :
    ("1 " : String) ≠ "1" ∧ mapear_ies "1 " = "UNIANDRADE" ∧
      mapear_ies "1 " ≠ pyUpper "1 " := by decide

theorem mapear_ies_cases (v : String) :
    (pyStrip v = "1" → mapear_ies v = "UNIANDRADE") ∧
    (pyStrip v = "201" → mapear_ies v = "UNISMG") ∧
    (pyStrip v = "301" → mapear_ies v = "UNIB") ∧
    (pyStrip v ≠ "1" → pyStrip v ≠ "201" → pyStrip v ≠ "301" →
      mapear_ies v = pyUpper (pyStrip v)) := by
  unfold mapear_ies
  refine ⟨fun h => ?_, fun h => ?_, fun h => ?_, fun h1 h2 h3 => ?_⟩
  · rw [if_pos h]
  · rw [if_neg (by rw [h]; decide), if_pos h]
  · rw [if_neg (by rw [h]; decide), if_neg (by rw [h]; decide), if_pos h]
  · rw [if_neg h1, if_neg h2, if_neg h3]

/-- C4 (amended): `mapear_ies` strips surrounding whitespace first; a
value whose stripped form is "1"/"201"/"301" maps to UNIANDRADE/UNISMG/
UNIB respectively (one fixed code per institution); every other value is
returned stripped and upper-cased, with validity checking deferred to the
institution lookup. -/
theorem mapear_ies_spec (v : String) :
    (pyStrip v = "1" → mapear_ies v = "UNIANDRADE") ∧
    (pyStrip v = "201" → mapear_ies v = "UNISMG") ∧
    (pyStrip v = "301" → mapear_ies v = "UNIB") ∧
    (pyStrip v ≠ "1" → pyStrip v ≠ "201" → pyStrip v ≠ "301" →
      mapear_ies v = pyUpper (pyStrip v)) :=
  mapear_ies_cases v

/-- Witness for C4 at the concrete inputs " 1 " and " uniB ". -/
theorem mapear_ies_spec_witness :
    mapear_ies " 1 " = "UNIANDRADE" ∧ mapear_ies " uniB " = pyUpper (pyStrip " uniB ") :=
  ⟨(mapear_ies_spec " 1 ").1 (by decide),
   (mapear_ies_spec " uniB ").2.2.2 (by decide) (by decide) (by decide)⟩

/-- C10: `mapear_ies` is idempotent: applying it to its own output gives
the same value as applying it once (both the canonical identifiers and
the stripped-and-upper-cased strings are fixed points). -/
theorem mapear_ies_mapear_ies (v : String) : mapear_ies (mapear_ies v) = mapear_ies v := by
  by_cases h1 : pyStrip v = "1"
  · rw [(mapear_ies_cases v).1 h1]
    decide
  by_cases h2 : pyStrip v = "201"
  · rw [(mapear_ies_cases v).2.1 h2]
    decide
  by_cases h3 : pyStrip v = "301"
  · rw [(mapear_ies_cases v).2.2.1 h3]
    decide
  rw [(mapear_ies_cases v).2.2.2 h1 h2 h3]
  have hstr : pyStrip (pyUpper (pyStrip v)) = pyUpper (pyStrip v) := by
    rw [pyStrip_pyUpper, pyStrip_pyStrip]
  have hn1 : pyStrip (pyUpper (pyStrip v)) ≠ "1" := by
    rw [hstr]
    intro hc
    exact h1 (pyUpper_eq_small (by decide) hc)
  have hn2 : pyStrip (pyUpper (pyStrip v)) ≠ "201" := by
    rw [hstr]
    intro hc
    exact h2 (pyUpper_eq_small (by decide) hc)
  have hn3 : pyStrip (pyUpper (pyStrip v)) ≠ "301" := by
    rw [hstr]
    intro hc
    exact h3 (pyUpper_eq_small (by decide) hc)
  rw [(mapear_ies_cases (pyUpper (pyStrip v))).2.2.2 hn1 hn2 hn3, hstr, pyUpper_pyUpper]

theorem isSome_toOption {α : Type} (e : Except String α) :
    e.toOption.isSome = !(isErro e) := by
  cases e <;> rfl

theorem zipLoop_eq (hoje : DataAtual) (tc : Bool) (p : Option String) :
    ∀ (n : Nat) (rows : List Row),
      zipLoop hoje tc p n rows =
        (rows.filterMap (fun r => (processarLinha hoje tc p r).toOption),
         rows.countP (fun r => !(isErro (processarLinha hoje tc p r))),
         ((List.enumFrom n rows).filter
            (fun q => isErro (processarLinha hoje tc p q.2))).map (msgDe hoje tc p)) := by
  intro n rows
  induction rows generalizing n with
  | nil => rfl
  | cons row rest ih =>
    simp only [zipLoop]
    rw [ih]
    cases h : processarLinha hoje tc p row with
    | ok e =>
      simp [h, isErro, msgDe, List.enumFrom_cons, List.countP_cons, Except.toOption]
    | error e =>
      simp [h, isErro, msgDe, List.enumFrom_cons, List.countP_cons, Except.toOption]

theorem countP_not_add {α : Type} (p : α → Bool) :
    ∀ l : List α, l.countP (fun a => !(p a)) + l.countP p = l.length := by
  intro l
  induction l with
  | nil => rfl
  | cons a t ih =>
    rw [List.countP_cons, List.countP_cons, List.length_cons]
    cases h : p a <;> simp [h] <;> omega

theorem enumFrom_countP (f : Row → Bool) :
    ∀ (n : Nat) (rows : List Row),
      (List.enumFrom n rows).countP (fun q => f q.2) = rows.countP f := by
  intro n rows
  induction rows generalizing n with
  | nil => rfl
  | cons r t ih =>
    rw [List.enumFrom_cons, List.countP_cons, List.countP_cons, ih]

theorem enumFrom_fst_le :
    ∀ (n : Nat) (rows : List Row) (q : Nat × Row), q ∈ List.enumFrom n rows → n ≤ q.1 := by
  intro n rows
  induction rows generalizing n with
  | nil => intro q hq; simp at hq
  | cons r t ih =>
    intro q hq
    rw [List.enumFrom_cons] at hq
    rcases List.mem_cons.mp hq with h | h
    · rw [h]
    · exact Nat.le_of_succ_le (ih (n + 1) q h)

theorem enumFrom_pairwise :
    ∀ (n : Nat) (rows : List Row),
      (List.enumFrom n rows).Pairwise (fun a b => a.1 < b.1) := by
  intro n rows
  induction rows generalizing n with
  | nil => simp
  | cons r t ih =>
    rw [List.enumFrom_cons]
    exact List.Pairwise.cons (fun q hq => enumFrom_fst_le (n + 1) t q hq) (ih (n + 1))

theorem invalida_erro (hoje : DataAtual) (tc : Bool) (p : Option String) (row : Row)
    (h : iesInvalida tc p row = true) :
    isErro (processarLinha hoje tc p row) = true := by
  unfold iesInvalida at h
  cases he : efetivaIES tc p row with
  | error e =>
    rw [he] at h
    simp at h
  | ok o =>
    rw [he] at h
    cases o with
    | none => simp [processarLinha, he, Bind.bind, Except.bind, isErro]
    | some s =>
      simp only [] at h
      have hnone : iesLookup s = none := Option.isNone_iff_eq_none.mp h
      simp [processarLinha, he, Bind.bind, Except.bind, hnone, isErro]

theorem countP_isErro_eq (hoje : DataAtual) (tc : Bool) (p : Option String) (rows : List Row)
    (hok : ∀ r ∈ rows, iesInvalida tc p r = false →
      isErro (processarLinha hoje tc p r) = false) :
    rows.countP (fun r => isErro (processarLinha hoje tc p r)) =
      rows.countP (iesInvalida tc p) := by
  apply List.countP_congr
  intro r hr
  constructor
  · intro he
    cases hi : iesInvalida tc p r with
    | true => rfl
    | false => rw [hok r hr hi] at he; exact he
  · intro hi
    exact invalida_erro hoje tc p r hi

/-- C1: for a batch of N records in which exactly K have an invalid
(unconfigured) effective institution and all other records render
successfully, `criar_zip_termos` returns an archive with exactly N-K
documents, a success count of N-K, and an error list with exactly K
entries, produced from the failing rows' pairwise-distinct row indices;
a failing record never aborts processing of subsequent records (the
remaining rows still contribute their entries and errors). -/
theorem criar_zip_contagem (hoje : DataAtual) (df : DataFrame) (ies_padrao : Option String)
    (K : Nat)
    (hK : K = df.rows.countP (iesInvalida (df.columns.contains ("IES")) ies_padrao))
    (hok : ∀ r ∈ df.rows,
      iesInvalida (df.columns.contains ("IES")) ies_padrao r = false →
      isErro (processarLinha hoje (df.columns.contains ("IES")) ies_padrao r) = false) :
    (criar_zip_termos hoje df ies_padrao).1.length = df.rows.length - K ∧
    (criar_zip_termos hoje df ies_padrao).2.1 = df.rows.length - K ∧
    (criar_zip_termos hoje df ies_padrao).2.2.length = K ∧
    (criar_zip_termos hoje df ies_padrao).2.2 =
      (falhas hoje (df.columns.contains ("IES")) ies_padrao df.rows).map
        (msgDe hoje (df.columns.contains ("IES")) ies_padrao) ∧
    (falhas hoje (df.columns.contains ("IES")) ies_padrao df.rows).Pairwise
      (fun a b => a.1 ≠ b.1) := by
  unfold criar_zip_termos
  rw [zipLoop_eq]
  dsimp only
  have hsum := countP_not_add
    (fun r => isErro (processarLinha hoje (df.columns.contains ("IES")) ies_padrao r)) df.rows
  have heq := countP_isErro_eq hoje (df.columns.contains ("IES")) ies_padrao df.rows hok
  have hc : df.rows.countP
        (fun r => ((processarLinha hoje (df.columns.contains ("IES")) ies_padrao r).toOption).isSome) =
      df.rows.countP
        (fun r => !(isErro (processarLinha hoje (df.columns.contains ("IES")) ies_padrao r))) :=
    List.countP_congr (fun r _ => by rw [isSome_toOption])
  refine ⟨?_, ?_, ?_, rfl, ?_⟩
  · rw [List.length_filterMap_eq_countP, hc]
    omega
  · omega
  · rw [List.length_map]
    rw [← List.countP_eq_length_filter]
    rw [enumFrom_countP
      (fun r => isErro (processarLinha hoje (df.columns.contains ("IES")) ies_padrao r))]
    omega
  · exact ((enumFrom_pairwise 0 df.rows).filter _).imp (fun h => Nat.ne_of_lt h)

/-- C9: for an empty batch `criar_zip_termos` completes and returns an
empty archive, success count zero and an empty error list. -/
theorem criar_zip_vazio (hoje : DataAtual) (df : DataFrame) (ies_padrao : Option String)
    (h : df.rows = []) : criar_zip_termos hoje df ies_padrao = ([], 0, []) := by
  unfold criar_zip_termos
  rw [h]
  rfl

def alunoJoao : Row :=
  [("NOME", "João da Silva"), ("CPF", "12345678901"), ("RUA", "Rua A"), ("BAIRRO", "Centro"),
   ("CIDADE", "Curitiba"), ("UF", "PR"), ("CURSO", "Direito"), ("IES", "UNIANDRADE")]

def alunaMaria : Row :=
  [("NOME", "Maria Santos"), ("CPF", "98765432100"), ("RUA", "Rua B"), ("BAIRRO", "Sul"),
   ("CIDADE", "São Paulo"), ("UF", "SP"), ("CURSO", "Letras"), ("IES", "XYZ")]

def alunoPedro : Row :=
  [("NOME", "Pedro Lima"), ("CPF", "11122233344"), ("RUA", "Rua C"), ("BAIRRO", "Norte"),
   ("CIDADE", "Recife"), ("UF", "PE"), ("CURSO", "Física"), ("IES", " unib ")]

def dfExemplo : DataFrame :=
  { columns := ["NOME", "CPF", "RUA", "BAIRRO", "CIDADE", "UF", "CURSO", "IES"],
    rows := [alunoJoao, alunaMaria, alunoPedro] }

/-- Witness for C1: a concrete 3-row batch with one bad institution. -/
theorem criar_zip_contagem_witness :
    1 = dfExemplo.rows.countP
        (iesInvalida (dfExemplo.columns.contains ("IES")) (some "UNIB")) ∧
    (criar_zip_termos ⟨10, 10, 2026⟩ dfExemplo (some "UNIB")).1.length =
      dfExemplo.rows.length - 1 ∧
    (criar_zip_termos ⟨10, 10, 2026⟩ dfExemplo (some "UNIB")).2.1 =
      dfExemplo.rows.length - 1 ∧
    (criar_zip_termos ⟨10, 10, 2026⟩ dfExemplo (some "UNIB")).2.2.length = 1 :=
  have h := criar_zip_contagem ⟨10, 10, 2026⟩ dfExemplo (some "UNIB") 1 (by decide)
    (by decide)
  ⟨by decide, h.1, h.2.1, h.2.2.1⟩

/-- Witness for C9 at a concrete empty table. -/
theorem criar_zip_vazio_witness :
    criar_zip_termos ⟨1, 1, 2026⟩ ⟨["NOME", "CPF"], []⟩ (some "UNIB") = ([], 0, []) :=
  criar_zip_vazio ⟨1, 1, 2026⟩ ⟨["NOME", "CPF"], []⟩ (some "UNIB") rfl

theorem gerar_invalid (hoje : DataAtual) (row : Row) (ies : String)
    (h : iesLookup ies = none) :
    gerar_termo_pdf_bytes hoje row ies =
      Except.error ("IES \x27" ++ ies ++ "\x27 não é válida. Use: UNIANDRADE, UNIB ou UNISMG") := by
  simp [gerar_termo_pdf_bytes, h]

theorem gerar_ok_spec (hoje : DataAtual) (row : Row) (ies : String) (doc : PdfDoc) (fn : String)
    (h : gerar_termo_pdf_bytes hoje row ies = Except.ok (doc, fn)) :
    rowGet row ("NOME") = Except.ok doc.nome ∧ doc.ies = ies ∧
    fn = sublinhado doc.nome ++ "_" ++ ies ++ "_termo.pdf" := by
  unfold gerar_termo_pdf_bytes at h
  by_cases hv : (iesLookup ies).isNone
  · rw [if_pos hv] at h
    simp at h
  · rw [if_neg hv] at h
    cases h1 : rowGet row ("NOME") with
    | error e => simp [h1, Bind.bind, Except.bind] at h
    | ok nome =>
    cases h2 : rowGet row ("CPF") with
    | error e => simp [h1, h2, Bind.bind, Except.bind] at h
    | ok cpf =>
    cases h3 : rowGet row ("RUA") with
    | error e => simp [h1, h2, h3, Bind.bind, Except.bind] at h
    | ok rua =>
    cases h4 : rowGet row ("BAIRRO") with
    | error e => simp [h1, h2, h3, h4, Bind.bind, Except.bind] at h
    | ok bairro =>
    cases h5 : rowGet row ("CIDADE") with
    | error e => simp [h1, h2, h3, h4, h5, Bind.bind, Except.bind] at h
    | ok cidade =>
    cases h6 : rowGet row ("UF") with
    | error e => simp [h1, h2, h3, h4, h5, h6, Bind.bind, Except.bind] at h
    | ok uf =>
    cases h7 : rowGet row ("CURSO") with
    | error e => simp [h1, h2, h3, h4, h5, h6, h7, Bind.bind, Except.bind] at h
    | ok curso =>
      simp only [h1, h2, h3, h4, h5, h6, h7, Bind.bind, Except.bind, Except.ok.injEq,
        Prod.mk.injEq] at h
      obtain ⟨hdoc, hfn⟩ := h
      rw [← hdoc, ← hfn]
      exact ⟨by simp [h1], rfl, rfl⟩

theorem processarLinha_ok_spec (hoje : DataAtual) (tc : Bool) (p : Option String) (row : Row)
    (fn : String) (doc : PdfDoc)
    (h : processarLinha hoje tc p row = Except.ok (fn, doc)) :
    efetivaIES tc p row = Except.ok (some doc.ies) ∧
    (iesLookup doc.ies).isSome = true ∧
    rowGet row ("NOME") = Except.ok doc.nome ∧
    fn = sublinhado doc.nome ++ "_" ++ doc.ies ++ "_termo.pdf" := by
  unfold processarLinha at h
  cases he : efetivaIES tc p row with
  | error e => simp [he, Bind.bind, Except.bind] at h
  | ok o =>
    cases o with
    | none => simp [he, Bind.bind, Except.bind] at h
    | some s =>
      simp only [he, Bind.bind, Except.bind] at h
      by_cases hl : (iesLookup s).isNone
      · simp [hl] at h
      · simp only [hl, if_false, Bool.false_eq_true, reduceIte] at h
        cases hg : gerar_termo_pdf_bytes hoje row s with
        | error e => rw [hg] at h; simp [Except.map] at h
        | ok r =>
          rw [hg] at h
          obtain ⟨d, f⟩ := r
          simp only [Except.map, Except.ok.injEq, Prod.mk.injEq] at h
          obtain ⟨hfn, hdoc⟩ := h
          obtain ⟨hnome, hies, hf⟩ := gerar_ok_spec hoje row s d f hg
          subst hdoc
          refine ⟨?_, ?_, hnome, ?_⟩
          · rw [hies]
          · rw [hies]
            cases hli : iesLookup s
            · rw [hli] at hl
              simp at hl
            · rfl
          · rw [← hfn, hf, hies]

theorem processarLinha_invalid (hoje : DataAtual) (tc : Bool) (p : Option String) (row : Row)
    (ies : String) (hef : efetivaIES tc p row = Except.ok (some ies))
    (h : iesLookup ies = none) :
    processarLinha hoje tc p row = Except.error ("IES \x27" ++ ies ++ "\x27 inválida") := by
  unfold processarLinha
  rw [hef]
  simp only [Bind.bind, Except.bind]
  simp [h]

/-- C5: for a record whose effective institution identifier is not in the
configured set, `gerar_termo_pdf_bytes` fails with the validation error
raised before any rendering work (the check at app.py:74-75 precedes all
field access and document construction, so no partial document exists),
and in the batch such a record contributes no entry to the archive: the
archive equals the archive of the same batch without that record. -/
theorem gerar_termo_ies_invalida (hoje : DataAtual) (row : Row) (ies : String)
    (h : iesLookup ies = none) :
    gerar_termo_pdf_bytes hoje row ies =
      Except.error ("IES \x27" ++ ies ++ "\x27 não é válida. Use: UNIANDRADE, UNIB ou UNISMG") ∧
    ∀ (cols : List String) (p : Option String) (rows1 rows2 : List Row),
      efetivaIES (cols.contains ("IES")) p row = Except.ok (some ies) →
      (criar_zip_termos hoje ⟨cols, rows1 ++ row :: rows2⟩ p).1 =
        (criar_zip_termos hoje ⟨cols, rows1 ++ rows2⟩ p).1 := by
  refine ⟨gerar_invalid hoje row ies h, ?_⟩
  intro cols p rows1 rows2 hef
  have herr := processarLinha_invalid hoje (cols.contains ("IES")) p row ies hef h
  unfold criar_zip_termos
  rw [zipLoop_eq, zipLoop_eq]
  dsimp only
  rw [List.filterMap_append, List.filterMap_append, List.filterMap_cons]
  rw [herr]
  simp only [Except.toOption]

/-- C6: for a valid record and institution, the filename returned by
`gerar_termo_pdf_bytes` is the student name with spaces replaced by
underscores, an underscore, the institution code, and "_termo.pdf"; two
renderings of the same record and institution (even on different dates,
which only change the embedded generation date) yield identical
filenames. -/
theorem gerar_nome_arquivo (hoje1 hoje2 : DataAtual) (row : Row) (ies nome : String)
    (doc1 doc2 : PdfDoc) (fn1 fn2 : String)
    (hn : rowGet row ("NOME") = Except.ok nome)
    (h1 : gerar_termo_pdf_bytes hoje1 row ies = Except.ok (doc1, fn1))
    (h2 : gerar_termo_pdf_bytes hoje2 row ies = Except.ok (doc2, fn2)) :
    fn1 = sublinhado nome ++ "_" ++ ies ++ "_termo.pdf" ∧ fn1 = fn2 := by
  obtain ⟨hn1, _, hf1⟩ := gerar_ok_spec hoje1 row ies doc1 fn1 h1
  obtain ⟨hn2, _, hf2⟩ := gerar_ok_spec hoje2 row ies doc2 fn2 h2
  have e1 : doc1.nome = nome := Except.ok.inj (hn1.symm.trans hn)
  have e2 : doc2.nome = nome := Except.ok.inj (hn2.symm.trans hn)
  constructor
  · rw [hf1, e1]
  · rw [hf1, hf2, e1, e2]

/-- C7: the institution a record is rendered with is the record's own
IES value stripped and upper-cased when the table carries an IES column,
and the caller-supplied default institution otherwise. -/
theorem ies_efetiva_usada (hoje : DataAtual) (df : DataFrame) (ies_padrao : Option String)
    (row : Row) (v : String) (doc : PdfDoc) (fn : String) :
    (df.columns.contains ("IES") = true →
      rowGet row ("IES") = Except.ok v →
      processarLinha hoje (df.columns.contains ("IES")) ies_padrao row = Except.ok (fn, doc) →
      doc.ies = pyUpper (pyStrip v)) ∧
    (df.columns.contains ("IES") = false →
      processarLinha hoje (df.columns.contains ("IES")) ies_padrao row = Except.ok (fn, doc) →
      some doc.ies = ies_padrao) := by
  constructor
  · intro htc hv hok
    rw [htc] at hok
    obtain ⟨hef, _, _, _⟩ := processarLinha_ok_spec hoje true ies_padrao row fn doc hok
    simp only [efetivaIES, if_true, hv, Except.map, Except.ok.injEq, Option.some.injEq] at hef
    exact hef.symm
  · intro htc hok
    rw [htc] at hok
    obtain ⟨hef, _, _, _⟩ := processarLinha_ok_spec hoje false ies_padrao row fn doc hok
    simp only [efetivaIES, if_false, Bool.false_eq_true, reduceIte, Except.ok.injEq] at hef
    exact hef.symm

/-- C8: two successfully processed records with the same name and the
same effective institution receive the same derived entry name, and both
entries are written, so the archive holds at least two entries under that
name (no deduplication or disambiguation). -/
theorem arquivo_duplicado (hoje : DataAtual) (cols : List String) (p : Option String)
    (rows1 rows2 rows3 : List Row) (r1 r2 : Row) (d1 d2 : PdfDoc) (fn1 fn2 : String)
    (h1 : processarLinha hoje (cols.contains ("IES")) p r1 = Except.ok (fn1, d1))
    (h2 : processarLinha hoje (cols.contains ("IES")) p r2 = Except.ok (fn2, d2))
    (hm : rowGet r1 ("NOME") = rowGet r2 ("NOME"))
    (hi : d1.ies = d2.ies) :
    fn1 = fn2 ∧
    2 ≤ (criar_zip_termos hoje ⟨cols, rows1 ++ r1 :: (rows2 ++ r2 :: rows3)⟩ p).1.countP
        (fun e => e.1 == fn1) := by
  obtain ⟨_, _, hn1, hf1⟩ := processarLinha_ok_spec hoje _ p r1 fn1 d1 h1
  obtain ⟨_, _, hn2, hf2⟩ := processarLinha_ok_spec hoje _ p r2 fn2 d2 h2
  have hnome : d1.nome = d2.nome := Except.ok.inj ((hn1.symm.trans hm).trans hn2)
  have hfn : fn1 = fn2 := by rw [hf1, hf2, hnome, hi]
  refine ⟨hfn, ?_⟩
  unfold criar_zip_termos
  rw [zipLoop_eq]
  dsimp only
  rw [List.filterMap_append, List.filterMap_cons]
  rw [h1]
  simp only [Except.toOption]
  rw [List.filterMap_append, List.filterMap_cons]
  rw [h2]
  simp only [Except.toOption]
  simp [List.countP_append, List.countP_cons, hfn]
  omega

theorem aplicar_columns (df : DataFrame) : (aplicarMapearIES df).columns = df.columns := by
  unfold aplicarMapearIES
  split <;> rfl

/-- C3: if, after trimming and upper-casing the column names, at least
one required column (NOME, CPF, RUA, BAIRRO, CIDADE, UF, CURSO) is
missing, the batch pipeline fails before producing any archive output
(`Except.error`, no `criar_zip_termos` result), and the failure report
contains exactly the missing required columns. -/
theorem colunas_faltando_aborta (hoje : DataAtual) (df0 : DataFrame) (ies_padrao : String)
    (h : ∃ c ∈ colunas_necessarias, (normalizarDf df0).columns.contains c = false) :
    ∃ faltando,
      processarPlanilha hoje df0 ies_padrao = Except.error faltando ∧
      faltando ≠ [] ∧
      faltando = colunas_necessarias.filter
        (fun c => !((normalizarDf df0).columns.contains c)) ∧
      ∀ c, c ∈ faltando ↔
        (c ∈ colunas_necessarias ∧ (normalizarDf df0).columns.contains c = false) := by
  obtain ⟨c0, hc0, hnc⟩ := h
  have hmem : c0 ∈ colunas_necessarias.filter
      (fun c => !((normalizarDf df0).columns.contains c)) :=
    List.mem_filter.mpr ⟨hc0, by rw [hnc]; rfl⟩
  refine ⟨colunas_necessarias.filter (fun c => !((normalizarDf df0).columns.contains c)),
    ?_, ?_, rfl, ?_⟩
  · unfold processarPlanilha
    rw [aplicar_columns]
    have hne : ¬ (colunas_necessarias.filter
        (fun c => !((normalizarDf df0).columns.contains c))).isEmpty = true := by
      intro hemp
      rw [List.isEmpty_iff] at hemp
      rw [hemp] at hmem
      simp at hmem
    rw [if_neg hne]
  · intro hemp
    rw [hemp] at hmem
    simp at hmem
  · intro c
    rw [List.mem_filter]
    simp

def docJoao (dx : String) : PdfDoc :=
  { nome := "João da Silva", cpf_formatado := "123.456.789-01", rua := "Rua A",
    bairro := "Centro", cidade := "Curitiba", uf := "PR", curso := "Direito",
    ies := "UNIANDRADE", data_extenso := dx }

def docPedro : PdfDoc :=
  { nome := "Pedro Lima", cpf_formatado := "111.222.333-44", rua := "Rua C",
    bairro := "Norte", cidade := "Recife", uf := "PE", curso := "Física",
    ies := "UNIB", data_extenso := "10 de outubro de 2026" }

/-- Witness for C5: institution "XYZ" in a concrete 3-row batch. -/
theorem gerar_termo_ies_invalida_witness :
    iesLookup "XYZ" = none ∧
    gerar_termo_pdf_bytes ⟨10, 10, 2026⟩ alunaMaria "XYZ" =
      Except.error ("IES \x27XYZ\x27 não é válida. Use: UNIANDRADE, UNIB ou UNISMG") ∧
    (criar_zip_termos ⟨10, 10, 2026⟩
        ⟨dfExemplo.columns, [alunoJoao, alunaMaria, alunoPedro]⟩ (some "UNIB")).1 =
      (criar_zip_termos ⟨10, 10, 2026⟩
        ⟨dfExemplo.columns, [alunoJoao, alunoPedro]⟩ (some "UNIB")).1 :=
  have h := gerar_termo_ies_invalida ⟨10, 10, 2026⟩ alunaMaria "XYZ" (by decide)
  ⟨by decide, h.1,
    h.2 dfExemplo.columns (some "UNIB") [alunoJoao] [alunoPedro] rfl⟩

/-- Witness for C6: rendering the same record on two dates. -/
theorem gerar_nome_arquivo_witness :
    ("João_da_Silva_UNIANDRADE_termo.pdf" : String) =
      sublinhado "João da Silva" ++ "_" ++ "UNIANDRADE" ++ "_termo.pdf" ∧
    ("João_da_Silva_UNIANDRADE_termo.pdf" : String) = "João_da_Silva_UNIANDRADE_termo.pdf" :=
  gerar_nome_arquivo ⟨10, 10, 2026⟩ ⟨1, 1, 2025⟩ alunoJoao "UNIANDRADE" "João da Silva"
    (docJoao "10 de outubro de 2026") (docJoao "1 de janeiro de 2025")
    "João_da_Silva_UNIANDRADE_termo.pdf" "João_da_Silva_UNIANDRADE_termo.pdf"
    rfl rfl rfl

/-- Witness for C7: per-record " unib " becomes UNIB; without an IES
column the default institution is used. -/
theorem ies_efetiva_usada_witness :
    docPedro.ies = pyUpper (pyStrip " unib ") ∧
    some (docJoao "10 de outubro de 2026").ies = some "UNIANDRADE" :=
  ⟨(ies_efetiva_usada ⟨10, 10, 2026⟩ dfExemplo (some "UNIB") alunoPedro " unib " docPedro
      "Pedro_Lima_UNIB_termo.pdf").1 (by decide) rfl rfl,
   (ies_efetiva_usada ⟨10, 10, 2026⟩ ⟨["NOME", "CPF"], []⟩ (some "UNIANDRADE") alunoJoao ""
      (docJoao "10 de outubro de 2026") "João_da_Silva_UNIANDRADE_termo.pdf").2
      (by decide) rfl⟩

/-- Witness for C8: the same student appearing twice in one batch. -/
theorem arquivo_duplicado_witness :
    ("João_da_Silva_UNIANDRADE_termo.pdf" : String) = "João_da_Silva_UNIANDRADE_termo.pdf" ∧
    2 ≤ (criar_zip_termos ⟨10, 10, 2026⟩
        ⟨dfExemplo.columns, [] ++ alunoJoao :: ([] ++ alunoJoao :: [alunaMaria])⟩
        (some "UNIB")).1.countP
        (fun e => e.1 == "João_da_Silva_UNIANDRADE_termo.pdf") :=
  arquivo_duplicado ⟨10, 10, 2026⟩ dfExemplo.columns (some "UNIB") [] [] [alunaMaria]
    alunoJoao alunoJoao (docJoao "10 de outubro de 2026") (docJoao "10 de outubro de 2026")
    "João_da_Silva_UNIANDRADE_termo.pdf" "João_da_Silva_UNIANDRADE_termo.pdf"
    rfl rfl rfl rfl

/-- Witness for C3: a table carrying only name and tax-id columns. -/
theorem colunas_faltando_aborta_witness :
    (∃ c ∈ colunas_necessarias,
      (normalizarDf ⟨[" nome ", "cpf"], []⟩).columns.contains c = false) ∧
    processarPlanilha ⟨1, 1, 2026⟩ ⟨[" nome ", "cpf"], []⟩ "UNIB" =
      Except.error (colunas_necessarias.filter
        (fun c => !((normalizarDf ⟨[" nome ", "cpf"], []⟩).columns.contains c))) :=
  have h := colunas_faltando_aborta ⟨1, 1, 2026⟩ ⟨[" nome ", "cpf"], []⟩ "UNIB" (by decide)
  ⟨by decide, by
    obtain ⟨faltando, he, _, hfil, _⟩ := h
    rw [he, hfil]⟩
